import Mathlib

/-!
Shallow embedding of the mealie-mcp-server adapter layer: the parameter
builders (`src/utils.py`, `src/param_builder.py`), the HTTP client request
handlers (`src/mealie/client.py` and the legacy `src/mealie_client.py`),
the domain operations of the mixins (`src/mealie/recipe.py`,
`src/mealie/shopping_list.py`, `src/mealie/mealplan.py`) and the tool
wrapper boundary (`src/server.py`).

Python exceptions are modelled by an explicit error type and fallible code
returns `Except`.  Stateful dispatch is modelled by returning the list of
HTTP requests a call sends together with its outcome, so that "raises before
any network call" is the statement that the request trace is empty.
-/

namespace Mealie

/-- A Python value as it appears in the optional-parameter dictionaries
(`None`, strings, ints, bools, lists of strings). -/
inductive PyVal where
  | vNone
  | vStr (s : String)
  | vInt (n : Int)
  | vBool (b : Bool)
  | vList (xs : List String)
deriving Repr, DecidableEq

/-- A JSON value (the parsed form of request/response bodies and of the
`Dict[str, Any]` arguments of the bulk operations). -/
inductive JVal where
  | jNull
  | jBool (b : Bool)
  | jNum (n : Int)
  | jStr (s : String)
  | jArr (xs : List JVal)
  | jObj (fields : List (String × JVal))

/-- Python dictionary lookup (`d[k]` / `d.get(k)`) on an association list;
keys are unique in every dictionary the source builds, so first-match
lookup is Python's lookup. -/
def plookup {β : Type} (k : String) : List (String × β) → Option β
  | [] => none
  | (k0, v) :: rest => if k0 = k then some v else plookup k rest

/-- Python truthiness of a JSON value (`if not item.get("display")`). -/
def JVal.truthy : JVal → Bool
  | .jNull => false
  | .jBool b => b
  | .jNum n => n != 0
  | .jStr s => s != ""
  | .jArr xs => !xs.isEmpty
  | .jObj fs => !fs.isEmpty

/-- Truthiness of `d.get(k)`: a missing key gives `None`, which is falsy. -/
def truthyGet (k : String) (d : List (String × JVal)) : Bool :=
  match plookup k d with
  | some v => v.truthy
  | none => false

/-- The Python exceptions the adapter raises or re-raises. -/
inductive PyExc where
  | valueError (msg : String)
  | typeError (msg : String)
  | attributeError (msg : String)
  | jsonDecodeError (msg : String)
  | apiError (statusCode : Nat) (message : String) (responseText : String)
  | timeoutError (msg : String)
  | connectionError (msg : String)
  | otherError (msg : String)
deriving Repr, DecidableEq

/-- `src/utils.py` `format_api_params`: drop `None` values, comma-join
lists, pass everything else through, preserving dictionary order. -/
def format_api_params : List (String × PyVal) → List (String × PyVal)
  | [] => []
  | (_, PyVal.vNone) :: rest => format_api_params rest
  | (k, PyVal.vList xs) :: rest =>
      (k, PyVal.vStr (String.intercalate "," xs)) :: format_api_params rest
  | (k, PyVal.vStr s) :: rest => (k, PyVal.vStr s) :: format_api_params rest
  | (k, PyVal.vInt n) :: rest => (k, PyVal.vInt n) :: format_api_params rest
  | (k, PyVal.vBool b) :: rest => (k, PyVal.vBool b) :: format_api_params rest

/-- `src/param_builder.py` `ParamBuilder.__init__`: the dictionary is the
constructor argument, whose default is `None`. -/
structure ParamBuilder where
  param_dict : Option (List (String × PyVal))
deriving Repr, DecidableEq

/-- `ParamBuilder.add`: `key in self.param_dict` on `None` raises
`TypeError`; a duplicate key raises `ValueError`; otherwise the key is
inserted at the end of the dictionary. -/
def ParamBuilder.add (b : ParamBuilder) (key : String) (value : PyVal) :
    Except PyExc ParamBuilder :=
  match b.param_dict with
  | none => .error (.typeError "argument of type NoneType is not iterable")
  | some d =>
      if (d.map Prod.fst).contains key then
        .error (.valueError
          ("Key \x27" ++ key ++ "\x27 already exists in the parameter dictionary."))
      else .ok ⟨some (d ++ [(key, value)])⟩

/-- `ParamBuilder.build`: `self.param_dict.items()` on `None` raises
`AttributeError`; otherwise the same loop as `format_api_params` (the two
loops are duplicated in the source). -/
def ParamBuilder.buildLoop : List (String × PyVal) → List (String × PyVal)
  | [] => []
  | (_, PyVal.vNone) :: rest => ParamBuilder.buildLoop rest
  | (k, PyVal.vList xs) :: rest =>
      (k, PyVal.vStr (String.intercalate "," xs)) :: ParamBuilder.buildLoop rest
  | (k, PyVal.vStr s) :: rest => (k, PyVal.vStr s) :: ParamBuilder.buildLoop rest
  | (k, PyVal.vInt n) :: rest => (k, PyVal.vInt n) :: ParamBuilder.buildLoop rest
  | (k, PyVal.vBool b) :: rest => (k, PyVal.vBool b) :: ParamBuilder.buildLoop rest

def ParamBuilder.build (b : ParamBuilder) :
    Except PyExc (List (String × PyVal)) :=
  match b.param_dict with
  | none => .error (.attributeError "NoneType object has no attribute items")
  | some d => .ok (ParamBuilder.buildLoop d)

/-- The value transformation both builders apply to one present value
(stated from the spec: absent values dropped, sequences comma-joined,
scalars unchanged); used to characterise `format_api_params`. -/
def formatValue : PyVal → Option PyVal
  | .vNone => none
  | .vList xs => some (.vStr (String.intercalate "," xs))
  | .vStr s => some (.vStr s)
  | .vInt n => some (.vInt n)
  | .vBool b => some (.vBool b)

theorem format_api_params_lookup_not_mem (ps : List (String × PyVal))
    (k : String) (h : k ∉ ps.map Prod.fst) :
    plookup k (format_api_params ps) = none := by
  induction ps with
  | nil => rfl
  | cons kv rest ih =>
      obtain ⟨k0, v0⟩ := kv
      simp only [List.map_cons, List.mem_cons] at h
      push_neg at h
      obtain ⟨hk0, hrest⟩ := h
      cases v0 <;> simp [format_api_params, plookup, Ne.symm hk0, ih hrest]

theorem buildLoop_eq_format (ps : List (String × PyVal)) :
    ParamBuilder.buildLoop ps = format_api_params ps := by
  induction ps with
  | nil => rfl
  | cons kv rest ih =>
      obtain ⟨k0, v0⟩ := kv
      cases v0 <;> simp [ParamBuilder.buildLoop, format_api_params, ih]

theorem format_api_params_lookup (ps : List (String × PyVal))
    (hnd : (ps.map Prod.fst).Nodup) (k : String) :
    plookup k (format_api_params ps) = (plookup k ps).bind formatValue := by
  induction ps with
  | nil => rfl
  | cons kv rest ih =>
      obtain ⟨k0, v0⟩ := kv
      simp only [List.map_cons, List.nodup_cons] at hnd
      obtain ⟨hk0, hrest⟩ := hnd
      by_cases hk : k0 = k
      · subst hk
        cases v0 <;>
          simp [format_api_params, plookup, formatValue,
            format_api_params_lookup_not_mem rest k0 hk0]
      · cases v0 <;> simp [format_api_params, plookup, hk, ih hrest]

/-! ## Python string rendering

`str()` as an f-string applies it to the parsed-JSON objects the handlers
interpolate into error messages: strings render bare, containers render as
Python literals (single-quoted strings, `True`/`False`/`None`). -/

mutual

def pyRepr : JVal → String
  | .jNull => "None"
  | .jBool true => "True"
  | .jBool false => "False"
  | .jNum n => toString n
  | .jStr s => "\x27" ++ s ++ "\x27"
  | .jArr xs => "[" ++ String.intercalate ", " (pyReprList xs) ++ "]"
  | .jObj fs => "\x7b" ++ String.intercalate ", " (pyReprFields fs) ++ "\x7d"

def pyReprList : List JVal → List String
  | [] => []
  | j :: rest => pyRepr j :: pyReprList rest

def pyReprFields : List (String × JVal) → List String
  | [] => []
  | (k, v) :: rest => ("\x27" ++ k ++ "\x27: " ++ pyRepr v) :: pyReprFields rest

end

/-- Python `str()` of a parsed JSON value: a string renders without quotes,
anything else by its `repr`. -/
def pyStrTop : JVal → String
  | .jStr s => s
  | j => pyRepr j

/-- Python `str(e)` for the modelled exceptions.  `MealieApiError.__init__`
passes `f"{message} (Status Code: {status_code})"` to `Exception`, so that
is its `str`; the others carry their message directly. -/
def pyExcStr : PyExc → String
  | .valueError m => m
  | .typeError m => m
  | .attributeError m => m
  | .jsonDecodeError m => m
  | .apiError code msg _ => msg ++ " (Status Code: " ++ toString code ++ ")"
  | .timeoutError m => m
  | .connectionError m => m
  | .otherError m => m

/-! ## The HTTP boundary -/

/-- A backend response as the handler observes it: the status code, the raw
body text, and the result of parsing the body as JSON (`none` when the body
is not valid JSON). -/
structure HttpResponse where
  status : Nat
  text : String
  jsonBody : Option JVal

/-- One dispatched request: method, path, query parameters and JSON body. -/
structure Request where
  method : String
  path : String
  params : List (String × PyVal)
  body : Option JVal

/-- What `_handle_request` returns on success: the parsed JSON body, or the
raw text when the body is not JSON. -/
inductive HandleResult where
  | json (j : JVal)
  | text (s : String)

/-- `src/mealie/client.py` `MealieClient._handle_request`, as a function of
the response: 2xx returns the parsed JSON, falling back to the raw text on
a decode failure; any non-2xx status becomes a `MealieApiError` whose
detail is the parsed JSON body (interpolated via `str()`) when the body
parses, and the raw text otherwise. -/
def handle_request (method url : String) (resp : HttpResponse) :
    Except PyExc HandleResult :=
  if 200 ≤ resp.status ∧ resp.status < 300 then
    match resp.jsonBody with
    | some j => .ok (.json j)
    | none => .ok (.text resp.text)
  else
    let error_detail : String :=
      match resp.jsonBody with
      | some j => pyStrTop j
      | none => resp.text
    let error_msg := "API error for " ++ method ++ " " ++ url ++ ": " ++ error_detail
    .error (.apiError resp.status error_msg resp.text)

/-- `src/mealie_client.py` `MealieClient._handle_request` (legacy variant):
2xx returns `response.json()` — a body that is not valid JSON raises a
decode error that the blanket `except` re-raises; on a non-2xx status the
detail is the `detail` field of the parsed JSON object when there is one,
the `"HTTP Error {status}"` placeholder when the body parses without one,
and the raw text when parsing fails. -/
def legacy_handle_request (method url : String) (resp : HttpResponse) :
    Except PyExc HandleResult :=
  if 200 ≤ resp.status ∧ resp.status < 300 then
    match resp.jsonBody with
    | some j => .ok (.json j)
    | none => .error (.jsonDecodeError "Expecting value: line 1 column 1 (char 0)")
  else
    let error_detail : String :=
      match resp.jsonBody with
      | some (.jObj fs) =>
          match plookup "detail" fs with
          | some d => pyStrTop d
          | none => "HTTP Error " ++ toString resp.status
      | some _ => "HTTP Error " ++ toString resp.status
      | none => resp.text
    let error_msg := "API error for " ++ method ++ " " ++ url ++ ": " ++ error_detail
    .error (.apiError resp.status error_msg resp.text)

/-- The composed message shape the spec names for backend API errors. -/
def composedApiMessage (method path detail : String) : String :=
  "API error for " ++ method ++ " " ++ path ++ ": " ++ detail

/-- The detail string the current handler actually composes for a non-2xx
response (spec-side characterisation, compared against `handle_request`). -/
def currentErrorDetail (resp : HttpResponse) : String :=
  match resp.jsonBody with
  | some j => pyStrTop j
  | none => resp.text

/-- The detail string the spec claims: the `detail` field of the parsed
JSON body when present, the raw text when the body does not parse (the
legacy handler adds an `"HTTP Error {status}"` placeholder in between). -/
def legacyErrorDetail (resp : HttpResponse) : String :=
  match resp.jsonBody with
  | some (.jObj fs) =>
      match plookup "detail" fs with
      | some d => pyStrTop d
      | none => "HTTP Error " ++ toString resp.status
  | some _ => "HTTP Error " ++ toString resp.status
  | none => resp.text

/-! ## Client construction (`MealieClient.__init__`) -/

/-- The outcome of the construction-time connectivity probe
(`self._client.get("/api/app/about")`): a response, an `httpx.ConnectError`,
or some other exception raised during setup. -/
inductive ProbeOutcome where
  | ok (resp : HttpResponse)
  | connectError (msg : String)
  | otherExc (e : PyExc)

/-- `src/mealie/client.py` `MealieClient.__init__`: empty base URL or API
key raise `ValueError` before the client is even built; a `ConnectError`
from the probe is wrapped in a `ConnectionError`; any other setup exception
is re-raised unchanged. -/
def mealieClient_init (base_url api_key : String) (probe : ProbeOutcome) :
    Except PyExc Unit :=
  if base_url = "" then .error (.valueError "Base URL cannot be empty")
  else if api_key = "" then .error (.valueError "API key cannot be empty")
  else
    match probe with
    | .ok _ => .ok ()
    | .connectError m =>
        .error (.connectionError
          ("Failed to connect to Mealie API at " ++ base_url ++ ": " ++ m))
    | .otherExc e => .error e

/-! ## Domain operations

Each operation is embedded as a `_run` function from its arguments (and the
backend response an eventual dispatch would receive) to the list of HTTP
requests it sends together with its outcome: a validation failure is an
`Except.error` with an empty request trace. -/

/-- A Python `Dict[str, Any]` argument (bulk items, recipe data). -/
abbrev PyDict := List (String × JVal)

/-- The outcome of one client method: the dispatched requests, then the
returned value or the raised exception. -/
abbrev RunResult := List Request × Except PyExc HandleResult

def optStr : Option String → PyVal
  | none => .vNone
  | some s => .vStr s

def optInt : Option Int → PyVal
  | none => .vNone
  | some n => .vInt n

def optList : Option (List String) → PyVal
  | none => .vNone
  | some xs => .vList xs

/-- Dispatch one request and hand the response to `_handle_request` (the
shared tail of every non-bulk, non-compound method in the mixins). -/
def dispatch (method path : String) (params : List (String × PyVal))
    (body : Option JVal) (resp : HttpResponse) : RunResult :=
  ([⟨method, path, params, body⟩], handle_request method path resp)

/-- `RecipeMixin.get_recipes` (`src/mealie/recipe.py`): builds the
parameter dictionary in declaration order, formats it with
`format_api_params`, and issues one GET; `order_direction` defaults to
`"desc"` at the Python call site. -/
def get_recipes_run (search order_by order_by_null_position order_direction
    query_filter pagination_seed : Option String) (page per_page : Option Int)
    (categories tags tools : Option (List String)) (resp : HttpResponse) :
    RunResult :=
  let param_dict : List (String × PyVal) :=
    [("search", optStr search),
     ("orderBy", optStr order_by),
     ("orderByNullPosition", optStr order_by_null_position),
     ("orderDirection", optStr order_direction),
     ("queryFilter", optStr query_filter),
     ("paginationSeed", optStr pagination_seed),
     ("page", optInt page),
     ("perPage", optInt per_page),
     ("categories", optList categories),
     ("tags", optList tags),
     ("tools", optList tools)]
  dispatch "GET" "/api/recipes" (format_api_params param_dict) none resp

/-- `RecipeMixin.get_recipe`: an empty slug raises before dispatch. -/
def get_recipe_run (slug : String) (resp : HttpResponse) : RunResult :=
  if slug = "" then ([], .error (.valueError "Recipe slug cannot be empty"))
  else dispatch "GET" ("/api/recipes/" ++ slug) [] none resp

/-- `RecipeMixin.update_recipe`: empty slug, then empty data, raise before
dispatch. -/
def update_recipe_run (slug : String) (recipe_data : PyDict)
    (resp : HttpResponse) : RunResult :=
  if slug = "" then ([], .error (.valueError "Recipe slug cannot be empty"))
  else if recipe_data.isEmpty then
    ([], .error (.valueError "Recipe data cannot be empty"))
  else dispatch "PUT" ("/api/recipes/" ++ slug) [] (some (.jObj recipe_data)) resp

/-- `ShoppingListMixin.create_shopping_list`. -/
def create_shopping_list_run (name : String) (description : Option String)
    (resp : HttpResponse) : RunResult :=
  if name = "" then ([], .error (.valueError "Shopping list name cannot be empty"))
  else
    let payload : PyDict :=
      match description with
      | some d => [("name", .jStr name), ("description", .jStr d)]
      | none => [("name", .jStr name)]
    dispatch "POST" "/api/households/shopping/lists" [] (some (.jObj payload)) resp

/-- `ShoppingListMixin.update_shopping_list`: requires a list id and at
least one of name/description. -/
def update_shopping_list_run (list_id : String) (name description : Option String)
    (resp : HttpResponse) : RunResult :=
  if list_id = "" then ([], .error (.valueError "Shopping list ID cannot be empty"))
  else if name = none ∧ description = none then
    ([], .error (.valueError "At least one of name or description must be provided"))
  else
    let payload : PyDict :=
      [("id", JVal.jStr list_id)]
        ++ (match name with | some n => [("name", JVal.jStr n)] | none => [])
        ++ (match description with | some d => [("description", JVal.jStr d)] | none => [])
    dispatch "PUT" ("/api/households/shopping/lists/" ++ list_id) []
      (some (.jObj payload)) resp

/-- `ShoppingListMixin.get_shopping_list`. -/
def get_shopping_list_run (list_id : String) (resp : HttpResponse) : RunResult :=
  if list_id = "" then ([], .error (.valueError "Shopping list ID cannot be empty"))
  else dispatch "GET" ("/api/households/shopping/lists/" ++ list_id) [] none resp

/-- `ShoppingListMixin.create_shopping_list_item`: requires list id and
item name; optional fields join the payload only when given. -/
def create_shopping_list_item_run (list_id item_name : String)
    (quantity : Option Int) (unit note food_id : Option String)
    (resp : HttpResponse) : RunResult :=
  if list_id = "" then ([], .error (.valueError "Shopping list ID cannot be empty"))
  else if item_name = "" then ([], .error (.valueError "Item name cannot be empty"))
  else
    let payload : PyDict :=
      [("shoppingListId", JVal.jStr list_id), ("display", JVal.jStr item_name)]
        ++ (match quantity with | some q => [("quantity", JVal.jNum q)] | none => [])
        ++ (match unit with | some u => [("unit", JVal.jStr u)] | none => [])
        ++ (match note with | some n => [("note", JVal.jStr n)] | none => [])
        ++ (match food_id with | some f => [("foodId", JVal.jStr f)] | none => [])
    dispatch "POST" "/api/shopping/items" [] (some (.jObj payload)) resp

/-- `ShoppingListMixin.update_shopping_list_item`: requires the item id and
at least one field to update. -/
def update_shopping_list_item_run (item_id : String) (item_name : Option String)
    (quantity : Option Int) (unit note : Option String) (checked : Option Bool)
    (position : Option Int) (resp : HttpResponse) : RunResult :=
  if item_id = "" then
    ([], .error (.valueError "Shopping list item ID cannot be empty"))
  else if item_name = none ∧ quantity = none ∧ unit = none ∧ note = none ∧
      checked = none ∧ position = none then
    ([], .error (.valueError "At least one parameter must be provided to update"))
  else
    let payload : PyDict :=
      [("id", JVal.jStr item_id)]
        ++ (match item_name with | some n => [("display", JVal.jStr n)] | none => [])
        ++ (match quantity with | some q => [("quantity", JVal.jNum q)] | none => [])
        ++ (match unit with | some u => [("unit", JVal.jStr u)] | none => [])
        ++ (match note with | some n => [("note", JVal.jStr n)] | none => [])
        ++ (match checked with | some c => [("checked", JVal.jBool c)] | none => [])
        ++ (match position with | some p => [("position", JVal.jNum p)] | none => [])
    dispatch "PUT" ("/api/shopping/items/" ++ item_id) [] (some (.jObj payload)) resp

/-- `ShoppingListMixin.delete_shopping_list_item`. -/
def delete_shopping_list_item_run (item_id : String) (resp : HttpResponse) :
    RunResult :=
  if item_id = "" then
    ([], .error (.valueError "Shopping list item ID cannot be empty"))
  else dispatch "DELETE" ("/api/shopping/items/" ++ item_id) [] none resp

/-- `ShoppingListMixin.get_shopping_list_item`. -/
def get_shopping_list_item_run (item_id : String) (resp : HttpResponse) :
    RunResult :=
  if item_id = "" then
    ([], .error (.valueError "Shopping list item ID cannot be empty"))
  else dispatch "GET" ("/api/shopping/items/" ++ item_id) [] none resp

/-- `ShoppingListMixin.toggle_shopping_list_item`. -/
def toggle_shopping_list_item_run (item_id : String) (resp : HttpResponse) :
    RunResult :=
  if item_id = "" then
    ([], .error (.valueError "Shopping list item ID cannot be empty"))
  else dispatch "PUT" ("/api/shopping/items/" ++ item_id ++ "/toggle") [] none resp

/-- The per-item payload `bulk_create_shopping_list_items` builds once an
item passed the `display` check: list id, display, then each optional field
that is present in the item (present by key, whatever its value). -/
def bulkItemPayload (list_id : String) (item : PyDict) : PyDict :=
  [("shoppingListId", JVal.jStr list_id),
   ("display", (plookup "display" item).getD JVal.jNull)]
    ++ (match plookup "quantity" item with | some v => [("quantity", v)] | none => [])
    ++ (match plookup "unit" item with | some v => [("unit", v)] | none => [])
    ++ (match plookup "note" item with | some v => [("note", v)] | none => [])
    ++ (match plookup "foodId" item with | some v => [("foodId", v)] | none => [])

/-- The payload loop of `bulk_create_shopping_list_items`: raises at the
first item whose `display` is missing or falsy. -/
def bulkCreatePayload (list_id : String) : List PyDict → Except PyExc (List PyDict)
  | [] => .ok []
  | item :: rest =>
      if !(truthyGet "display" item) then
        .error (.valueError "Each item must have a \x27display\x27 name")
      else do
        let tail ← bulkCreatePayload list_id rest
        .ok (bulkItemPayload list_id item :: tail)

/-- `ShoppingListMixin.bulk_create_shopping_list_items`. -/
def bulk_create_shopping_list_items_run (list_id : String) (items : List PyDict)
    (resp : HttpResponse) : RunResult :=
  if list_id = "" then ([], .error (.valueError "Shopping list ID cannot be empty"))
  else if items.isEmpty then
    ([], .error (.valueError "Items must be a non-empty list of item dictionaries"))
  else
    match bulkCreatePayload list_id items with
    | .error e => ([], .error e)
    | .ok payload =>
        dispatch "POST" "/api/shopping/items/bulk" []
          (some (.jArr (payload.map .jObj))) resp

/-- The validation loop of `bulk_update_shopping_list_items`: raises at the
first item whose `id` is missing or falsy. -/
def bulkUpdateValidate : List PyDict → Except PyExc Unit
  | [] => .ok ()
  | item :: rest =>
      if !(truthyGet "id" item) then
        .error (.valueError "Each item must have an \x27id\x27 field")
      else bulkUpdateValidate rest

/-- `ShoppingListMixin.bulk_update_shopping_list_items`. -/
def bulk_update_shopping_list_items_run (items : List PyDict)
    (resp : HttpResponse) : RunResult :=
  if items.isEmpty then
    ([], .error (.valueError "Items must be a non-empty list of item dictionaries"))
  else
    match bulkUpdateValidate items with
    | .error e => ([], .error e)
    | .ok () =>
        dispatch "PUT" "/api/shopping/items/bulk" []
          (some (.jArr (items.map .jObj))) resp

/-- `ShoppingListMixin.bulk_delete_shopping_list_items`. -/
def bulk_delete_shopping_list_items_run (item_ids : List String)
    (resp : HttpResponse) : RunResult :=
  if item_ids.isEmpty then
    ([], .error (.valueError "Item IDs must be a non-empty list"))
  else
    dispatch "DELETE" "/api/shopping/items/bulk" []
      (some (.jArr (item_ids.map .jStr))) resp

/-- `MealplanMixin.get_all_mealplans` (`src/mealie/mealplan.py`): starts
from `ParamBuilder()` — whose dictionary is `None` — then conditionally
adds each given argument and builds. -/
def get_all_mealplans_run (start_date end_date : Option String)
    (page per_page : Option Int) (resp : HttpResponse) : RunResult :=
  let built : Except PyExc (List (String × PyVal)) := do
    let b : ParamBuilder := ⟨none⟩
    let b ← match start_date with
      | some s => b.add "start_date" (.vStr s)
      | none => pure b
    let b ← match end_date with
      | some s => b.add "end_date" (.vStr s)
      | none => pure b
    let b ← match page with
      | some n => b.add "page" (.vInt n)
      | none => pure b
    let b ← match per_page with
      | some n => b.add "per_page" (.vInt n)
      | none => pure b
    b.build
  match built with
  | .error e => ([], .error e)
  | .ok ps => dispatch "GET" "/api/households/mealplans" ps none resp

/-- `MealplanMixin.get_mealplan_rules`: same `ParamBuilder()` pattern. -/
def get_mealplan_rules_run (page per_page : Option Int)
    (resp : HttpResponse) : RunResult :=
  let built : Except PyExc (List (String × PyVal)) := do
    let b : ParamBuilder := ⟨none⟩
    let b ← match page with
      | some n => b.add "page" (.vInt n)
      | none => pure b
    let b ← match per_page with
      | some n => b.add "per_page" (.vInt n)
      | none => pure b
    b.build
  match built with
  | .error e => ([], .error e)
  | .ok ps => dispatch "GET" "/api/households/mealplans/rules" ps none resp

/-- Whether one character list begins with another (the scheme check of
the URL import, written over characters). -/
def listStartsWith : List Char → List Char → Bool
  | _, [] => true
  | [], _ :: _ => false
  | c :: cs, p :: ps => c == p && listStartsWith cs ps

/-- Whether a URL begins with one of the accepted scheme prefixes
(`http://` or `https://`). -/
def acceptedScheme (url : String) : Bool :=
  listStartsWith url.toList "http://".toList ||
    listStartsWith url.toList "https://".toList

/-- Modelled from the spec: `import_recipe_from_url` is absent from the
source tree (only its unit tests call it), so the compound operation is
taken from the spec's words — validate the URL is non-empty and begins with
an accepted scheme prefix, POST `{url}` to the creation endpoint, which
returns a bare identifier string, then GET the full resource using that
identifier; if the first call fails, the second is never attempted. -/
def import_recipe_from_url_run (url : String) (resp1 resp2 : HttpResponse) :
    RunResult :=
  if url = "" then ([], .error (.valueError "Recipe URL cannot be empty"))
  else if !(acceptedScheme url) then
    ([], .error (.valueError "Invalid URL format"))
  else
    let req1 : Request :=
      ⟨"POST", "/api/recipes/create/url", [], some (.jObj [("url", .jStr url)])⟩
    match handle_request "POST" "/api/recipes/create/url" resp1 with
    | .error e => ([req1], .error e)
    | .ok r =>
        let slug := match r with
          | .json (.jStr s) => s
          | .json j => pyStrTop j
          | .text s => s
        let path2 := "/api/recipes/" ++ slug
        ([req1, ⟨"GET", path2, [], none⟩], handle_request "GET" path2 resp2)

/-! ## The tool-call boundary (`src/server.py`) -/

/-- One character of Python `json.dumps` string escaping. -/
def escChar (c : Char) : String :=
  if c = '"' then "\\\""
  else if c = '\\' then "\\\\"
  else if c = '\n' then "\\n"
  else if c = '\t' then "\\t"
  else if c = '\r' then "\\r"
  else String.singleton c

def escList : List Char → String
  | [] => ""
  | c :: rest => escChar c ++ escList rest

/-- Python `json.dumps` escaping of a string value. -/
def jsonEscape (s : String) : String := escList s.toList

/-- `format_error_response` (`src/server.py` and `src/utils.py`):
`json.dumps({"success": False, "error": error_message})`. -/
def format_error_response (error_message : String) : String :=
  "\x7b\"success\": false, \"error\": \"" ++ jsonEscape error_message ++ "\"\x7d"

/-- The `get_recipe` tool wrapper (`src/server.py`): returns the client
result on success and the Error Envelope string on any caught exception;
nothing escapes the boundary. -/
def tool_get_recipe (slug : String) (resp : HttpResponse) :
    List Request × (String ⊕ HandleResult) :=
  match get_recipe_run slug resp with
  | (tr, .ok r) => (tr, .inr r)
  | (tr, .error e) =>
      (tr, .inl (format_error_response
        ("Error fetching recipe with slug \x27" ++ slug ++ "\x27: " ++ pyExcStr e)))

/-! Every tool wrapper in `src/server.py` and `src/tools/*.py` has the same
`try`/`except` shape: return the inner client call's value, and on any
exception return `format_error_response(f"<message>: {str(e)}")`.  Each
wrapper below is embedded as a function of the outcome of its inner call —
the `except Exception` clause catches whatever that call raises, so the
outcome parameter ranges over exactly the cases the wrapper distinguishes.
Wrapper arguments that do not appear in the message only feed the inner
call and are part of that outcome.  A wrapper that occurs with the same
message in both `src/server.py` and a `src/tools/*.py` module is embedded
once. -/

/-- The shared `try`/`except` boundary: pass a returned value through,
convert any raised exception to the Error Envelope string built from the
wrapper's message and `str(e)`. -/
def toolBoundary {α : Type} (msgFor : String) (result : Except PyExc α) :
    String ⊕ α :=
  match result with
  | .ok r => .inr r
  | .error e => .inl (format_error_response (msgFor ++ pyExcStr e))

/-- `get_foods` wrapper (`src/server.py`, `src/tools/food_tools.py`). -/
def tool_get_foods (res : Except PyExc HandleResult) : String ⊕ HandleResult :=
  toolBoundary "Error fetching foods: " res

/-- `get_recipes` wrapper (`src/server.py`, `src/tools/recipe_tools.py`). -/
def tool_get_recipes (res : Except PyExc HandleResult) : String ⊕ HandleResult :=
  toolBoundary "Error fetching recipes: " res

/-- `update_recipe` wrapper (`src/server.py`; `src/tools/recipe_tools.py`
adds payload validation inside the same `try`, raising into the same
`except`). -/
def tool_update_recipe (slug : String) (res : Except PyExc HandleResult) :
    String ⊕ HandleResult :=
  toolBoundary ("Error updating recipe with slug \x27" ++ slug ++ "\x27: ") res

/-- `create_recipe` wrapper (`src/tools/recipe_tools.py`). -/
def tool_create_recipe (name : String) (res : Except PyExc HandleResult) :
    String ⊕ HandleResult :=
  toolBoundary ("Error creating recipe with name \x27" ++ name ++ "\x27: ") res

/-- `create_shopping_list` wrapper (`src/server.py`,
`src/tools/shopping_list_tools.py`). -/
def tool_create_shopping_list (name : String) (res : Except PyExc HandleResult) :
    String ⊕ HandleResult :=
  toolBoundary ("Error creating shopping list \x27" ++ name ++ "\x27: ") res

/-- `update_shopping_list` wrapper (`src/server.py`,
`src/tools/shopping_list_tools.py`). -/
def tool_update_shopping_list (list_id : String)
    (res : Except PyExc HandleResult) : String ⊕ HandleResult :=
  toolBoundary ("Error updating shopping list \x27" ++ list_id ++ "\x27: ") res

/-- `get_shopping_lists` wrapper (`src/server.py`,
`src/tools/shopping_list_tools.py`). -/
def tool_get_shopping_lists (res : Except PyExc HandleResult) :
    String ⊕ HandleResult :=
  toolBoundary "Error fetching shopping lists: " res

/-- `get_shopping_list` wrapper (`src/server.py`,
`src/tools/shopping_list_tools.py`). -/
def tool_get_shopping_list (list_id : String)
    (res : Except PyExc HandleResult) : String ⊕ HandleResult :=
  toolBoundary ("Error fetching shopping list \x27" ++ list_id ++ "\x27: ") res

/-- `create_shopping_list_item` wrapper (`src/server.py`,
`src/tools/shopping_list_tools.py`). -/
def tool_create_shopping_list_item (item_name : String)
    (res : Except PyExc HandleResult) : String ⊕ HandleResult :=
  toolBoundary
    ("Error creating shopping list item \x27" ++ item_name ++ "\x27: ") res

/-- `update_shopping_list_item` wrapper (`src/server.py`,
`src/tools/shopping_list_tools.py`). -/
def tool_update_shopping_list_item (item_id : String)
    (res : Except PyExc HandleResult) : String ⊕ HandleResult :=
  toolBoundary
    ("Error updating shopping list item \x27" ++ item_id ++ "\x27: ") res

/-- `delete_shopping_list_item` wrapper (`src/server.py`,
`src/tools/shopping_list_tools.py`). -/
def tool_delete_shopping_list_item (item_id : String)
    (res : Except PyExc HandleResult) : String ⊕ HandleResult :=
  toolBoundary
    ("Error deleting shopping list item \x27" ++ item_id ++ "\x27: ") res

/-- `get_shopping_list_item` wrapper (`src/server.py`,
`src/tools/shopping_list_tools.py`). -/
def tool_get_shopping_list_item (item_id : String)
    (res : Except PyExc HandleResult) : String ⊕ HandleResult :=
  toolBoundary
    ("Error fetching shopping list item \x27" ++ item_id ++ "\x27: ") res

/-- `toggle_shopping_list_item` wrapper (`src/server.py`,
`src/tools/shopping_list_tools.py`). -/
def tool_toggle_shopping_list_item (item_id : String)
    (res : Except PyExc HandleResult) : String ⊕ HandleResult :=
  toolBoundary
    ("Error toggling shopping list item \x27" ++ item_id ++ "\x27: ") res

/-- `bulk_create_shopping_list_items` wrapper (`src/server.py`,
`src/tools/shopping_list_tools.py`). -/
def tool_bulk_create_shopping_list_items (res : Except PyExc HandleResult) :
    String ⊕ HandleResult :=
  toolBoundary "Error bulk creating shopping list items: " res

/-- `bulk_update_shopping_list_items` wrapper (`src/server.py`,
`src/tools/shopping_list_tools.py`). -/
def tool_bulk_update_shopping_list_items (res : Except PyExc HandleResult) :
    String ⊕ HandleResult :=
  toolBoundary "Error bulk updating shopping list items: " res

/-- `bulk_delete_shopping_list_items` wrapper (`src/server.py`,
`src/tools/shopping_list_tools.py`). -/
def tool_bulk_delete_shopping_list_items (res : Except PyExc HandleResult) :
    String ⊕ HandleResult :=
  toolBoundary "Error bulk deleting shopping list items: " res

/-- `get_all_shopping_list_items` wrapper (`src/server.py`,
`src/tools/shopping_list_tools.py`). -/
def tool_get_all_shopping_list_items (res : Except PyExc HandleResult) :
    String ⊕ HandleResult :=
  toolBoundary "Error retrieving shopping list items: " res

/-- `get_food` wrapper (`src/tools/food_tools.py`). -/
def tool_get_food (food_id : String) (res : Except PyExc HandleResult) :
    String ⊕ HandleResult :=
  toolBoundary ("Error fetching food with ID " ++ food_id ++ ": ") res

/-- `create_food` wrapper (`src/tools/food_tools.py`). -/
def tool_create_food (res : Except PyExc HandleResult) : String ⊕ HandleResult :=
  toolBoundary "Error creating food: " res

/-- `update_food` wrapper (`src/tools/food_tools.py`). -/
def tool_update_food (food_id : String) (res : Except PyExc HandleResult) :
    String ⊕ HandleResult :=
  toolBoundary ("Error updating food with ID " ++ food_id ++ ": ") res

/-- `get_current_user` wrapper (`src/tools/user_tools.py`). -/
def tool_get_current_user (res : Except PyExc HandleResult) :
    String ⊕ HandleResult :=
  toolBoundary "Error fetching current user information: " res

/-- `get_current_group` wrapper (`src/tools/group_tools.py`). -/
def tool_get_current_group (res : Except PyExc HandleResult) :
    String ⊕ HandleResult :=
  toolBoundary "Error fetching current group information: " res

/-- `get_mealplans` wrapper (`src/tools/mealplan_tools.py`). -/
def tool_get_mealplans (res : Except PyExc HandleResult) :
    String ⊕ HandleResult :=
  toolBoundary "Error fetching meal plans: " res

/-- `get_mealplan` wrapper (`src/tools/mealplan_tools.py`); the id is an
integer interpolated by `str()`. -/
def tool_get_mealplan (item_id : Int) (res : Except PyExc HandleResult) :
    String ⊕ HandleResult :=
  toolBoundary ("Error fetching meal plan with ID " ++ toString item_id ++ ": ") res

/-- `create_mealplan` wrapper (`src/tools/mealplan_tools.py`). -/
def tool_create_mealplan (res : Except PyExc HandleResult) :
    String ⊕ HandleResult :=
  toolBoundary "Error creating meal plan: " res

/-- `update_mealplan` wrapper (`src/tools/mealplan_tools.py`). -/
def tool_update_mealplan (item_id : Int) (res : Except PyExc HandleResult) :
    String ⊕ HandleResult :=
  toolBoundary ("Error updating meal plan with ID " ++ toString item_id ++ ": ") res

/-- `get_todays_meals` wrapper (`src/tools/mealplan_tools.py`). -/
def tool_get_todays_meals (res : Except PyExc HandleResult) :
    String ⊕ HandleResult :=
  toolBoundary "Error fetching today\x27s meal plans: " res

/-- `create_random_meal` wrapper (`src/tools/mealplan_tools.py`). -/
def tool_create_random_meal (res : Except PyExc HandleResult) :
    String ⊕ HandleResult :=
  toolBoundary "Error creating random meal: " res

/-- `get_mealplan_rules` wrapper (`src/tools/mealplan_tools.py`). -/
def tool_get_mealplan_rules (res : Except PyExc HandleResult) :
    String ⊕ HandleResult :=
  toolBoundary "Error fetching meal plan rules: " res

/-- `get_mealplan_rule` wrapper (`src/tools/mealplan_tools.py`). -/
def tool_get_mealplan_rule (rule_id : String) (res : Except PyExc HandleResult) :
    String ⊕ HandleResult :=
  toolBoundary ("Error fetching meal plan rule with ID " ++ rule_id ++ ": ") res

/-- `create_mealplan_rule` wrapper (`src/tools/mealplan_tools.py`). -/
def tool_create_mealplan_rule (res : Except PyExc HandleResult) :
    String ⊕ HandleResult :=
  toolBoundary "Error creating meal plan rule: " res

/-- `update_mealplan_rule` wrapper (`src/tools/mealplan_tools.py`). -/
def tool_update_mealplan_rule (rule_id : String) (res : Except PyExc HandleResult) :
    String ⊕ HandleResult :=
  toolBoundary ("Error updating meal plan rule with ID " ++ rule_id ++ ": ") res

/-! ## Shared helper lemmas -/

/-- Whether a Python value is present (not `None`); spec-side, used to
state which keys survive parameter building. -/
def isPresent : PyVal → Bool
  | .vNone => false
  | _ => true

theorem format_api_params_keys (ps : List (String × PyVal)) :
    (format_api_params ps).map Prod.fst =
      (ps.filter (fun kv => isPresent kv.2)).map Prod.fst := by
  induction ps with
  | nil => rfl
  | cons kv rest ih =>
      obtain ⟨k0, v0⟩ := kv
      cases v0 <;> simp [format_api_params, List.filter, isPresent, ih]

theorem escList_append (l1 l2 : List Char) :
    escList (l1 ++ l2) = escList l1 ++ escList l2 := by
  induction l1 with
  | nil => simp [escList]
  | cons c rest ih => simp [escList, ih, String.append_assoc]

theorem jsonEscape_append (a b : String) :
    jsonEscape (a ++ b) = jsonEscape a ++ jsonEscape b := by
  simp [jsonEscape, String.toList, String.data_append, escList_append]

/-! ## Claim C2 -/

/-- C2: for every input mapping (with the unique keys a Python dict has),
both parameter builders keep exactly the keys whose values are not `None`;
a list value becomes its elements joined by a comma in input order with no
added whitespace; non-list, non-`None` values pass through unchanged; and
an empty list yields the empty string as the value, the key kept. -/
theorem param_building_drops_none_and_joins_lists (ps : List (String × PyVal))
    (hnd : (ps.map Prod.fst).Nodup) :
    ParamBuilder.build ⟨some ps⟩ = .ok (format_api_params ps) ∧
    (format_api_params ps).map Prod.fst =
      (ps.filter (fun kv => isPresent kv.2)).map Prod.fst ∧
    (∀ k, plookup k (format_api_params ps) = (plookup k ps).bind formatValue) ∧
    (∀ k xs, plookup k ps = some (PyVal.vList xs) →
      plookup k (format_api_params ps) =
        some (PyVal.vStr (String.intercalate "," xs))) ∧
    (∀ k, plookup k ps = some (PyVal.vList []) →
      plookup k (format_api_params ps) = some (PyVal.vStr "")) := by
  refine ⟨by simp [ParamBuilder.build, buildLoop_eq_format],
    format_api_params_keys ps,
    format_api_params_lookup ps hnd, ?_, ?_⟩
  · intro k xs hk
    rw [format_api_params_lookup ps hnd, hk]
    rfl
  · intro k hk
    rw [format_api_params_lookup ps hnd, hk]
    rfl

theorem param_building_drops_none_and_joins_lists_witness :
    (([("search", PyVal.vStr "chicken"), ("orderBy", PyVal.vNone),
       ("tags", PyVal.vList ["a", "b"]), ("tools", PyVal.vList [])].map
        Prod.fst).Nodup) ∧
    plookup "tags"
      (format_api_params
        [("search", PyVal.vStr "chicken"), ("orderBy", PyVal.vNone),
         ("tags", PyVal.vList ["a", "b"]), ("tools", PyVal.vList [])]) =
      some (PyVal.vStr "a,b") ∧
    plookup "tools"
      (format_api_params
        [("search", PyVal.vStr "chicken"), ("orderBy", PyVal.vNone),
         ("tags", PyVal.vList ["a", "b"]), ("tools", PyVal.vList [])]) =
      some (PyVal.vStr "") ∧
    plookup "orderBy"
      (format_api_params
        [("search", PyVal.vStr "chicken"), ("orderBy", PyVal.vNone),
         ("tags", PyVal.vList ["a", "b"]), ("tools", PyVal.vList [])]) = none := by
  have h := param_building_drops_none_and_joins_lists
    [("search", PyVal.vStr "chicken"), ("orderBy", PyVal.vNone),
     ("tags", PyVal.vList ["a", "b"]), ("tools", PyVal.vList [])] (by decide)
  refine ⟨by decide, ?_, ?_, ?_⟩
  · rw [h.2.2.2.1 "tags" ["a", "b"] rfl]; rfl
  · rw [h.2.2.2.2 "tools" rfl]
  · rw [h.2.2.1 "orderBy"]; rfl

/-! ## Claim C9 -/

/-- C9 counterexample: `build` does not mutate the builder, so an `add`
with a fresh key after a successful `build` succeeds silently instead of
failing loudly — refuting the add-after-build half of the claim at the
builder holding `{"a": 1}`. -/
theorem add_after_build_succeeds_cex :
    ParamBuilder.build ⟨some [("a", PyVal.vInt 1)]⟩ = .ok [("a", PyVal.vInt 1)] ∧
    ParamBuilder.add ⟨some [("a", PyVal.vInt 1)]⟩ "b" (PyVal.vInt 2) =
      .ok ⟨some [("a", PyVal.vInt 1), ("b", PyVal.vInt 2)]⟩ :=
  ⟨rfl, rfl⟩

/-- C9 amended: adding a key that already exists raises a `ValueError`
rather than overwriting; but `build` leaves the dictionary untouched, so a
later `add` behaves exactly as before the `build` — it raises only for a
duplicate key (or the `None` dictionary of a bare `ParamBuilder()`), and a
fresh key is appended silently. -/
theorem add_duplicate_raises_add_after_build_unchanged
    (d : List (String × PyVal)) (k : String) (v : PyVal) :
    ((d.map Prod.fst).contains k = true →
      ParamBuilder.add ⟨some d⟩ k v =
        .error (.valueError
          ("Key \x27" ++ k ++ "\x27 already exists in the parameter dictionary."))) ∧
    ((d.map Prod.fst).contains k = false →
      ParamBuilder.add ⟨some d⟩ k v = .ok ⟨some (d ++ [(k, v)])⟩) ∧
    ParamBuilder.add ⟨none⟩ k v =
      .error (.typeError "argument of type NoneType is not iterable") := by
  refine ⟨fun h => ?_, fun h => ?_, rfl⟩ <;> (simp only [ParamBuilder.add, h]; rfl)

theorem add_duplicate_raises_add_after_build_unchanged_witness :
    (([("a", PyVal.vInt 1)].map Prod.fst).contains "a" = true ∧
      ParamBuilder.add ⟨some [("a", PyVal.vInt 1)]⟩ "a" (PyVal.vInt 3) =
        .error (.valueError
          "Key \x27a\x27 already exists in the parameter dictionary.")) ∧
    (([("a", PyVal.vInt 1)].map Prod.fst).contains "b" = false ∧
      ParamBuilder.add ⟨some [("a", PyVal.vInt 1)]⟩ "b" (PyVal.vInt 2) =
        .ok ⟨some [("a", PyVal.vInt 1), ("b", PyVal.vInt 2)]⟩) := by
  have h1 := add_duplicate_raises_add_after_build_unchanged
    [("a", PyVal.vInt 1)] "a" (PyVal.vInt 3)
  have h2 := add_duplicate_raises_add_after_build_unchanged
    [("a", PyVal.vInt 1)] "b" (PyVal.vInt 2)
  exact ⟨⟨by decide, h1.1 (by decide)⟩, ⟨by decide, h2.2.1 (by decide)⟩⟩

/-! ## Claim C10 -/

/-- C10: a `ParamBuilder` constructed with no initial mapping holds `None`,
so every `add` raises a `TypeError` and every `build` an `AttributeError`;
hence `get_all_mealplans` and `get_mealplan_rules`, which start from a bare
`ParamBuilder()`, raise before dispatching any HTTP request for every
choice of arguments. -/
theorem bare_parambuilder_makes_mealplan_calls_raise :
    (∀ k v, ParamBuilder.add ⟨none⟩ k v =
      .error (.typeError "argument of type NoneType is not iterable")) ∧
    ParamBuilder.build ⟨none⟩ =
      .error (.attributeError "NoneType object has no attribute items") ∧
    (∀ sd ed p pp resp, (get_all_mealplans_run sd ed p pp resp).1 = [] ∧
      ∃ e, (get_all_mealplans_run sd ed p pp resp).2 = .error e) ∧
    (∀ p pp resp, (get_mealplan_rules_run p pp resp).1 = [] ∧
      ∃ e, (get_mealplan_rules_run p pp resp).2 = .error e) := by
  refine ⟨fun k v => rfl, rfl, ?_, ?_⟩
  · intro sd ed p pp resp
    cases sd <;> cases ed <;> cases p <;> cases pp <;> exact ⟨rfl, _, rfl⟩
  · intro p pp resp
    cases p <;> cases pp <;> exact ⟨rfl, _, rfl⟩

/-! ## Claim C5 -/

/-- C5: construction with an empty base URL or an empty credential fails
with a `ValueError` whatever the probe would do (so before any network
activity); a connect error during the probe is wrapped in a
`ConnectionError` that carries the underlying cause; any other setup
exception propagates unchanged. -/
theorem client_init_validation_then_probe (base_url api_key : String)
    (probe : ProbeOutcome) :
    (base_url = "" → ∀ pr, mealieClient_init base_url api_key pr =
      .error (.valueError "Base URL cannot be empty")) ∧
    (base_url ≠ "" → api_key = "" → ∀ pr, mealieClient_init base_url api_key pr =
      .error (.valueError "API key cannot be empty")) ∧
    (base_url ≠ "" → api_key ≠ "" → ∀ m, probe = .connectError m →
      mealieClient_init base_url api_key probe =
        .error (.connectionError
          ("Failed to connect to Mealie API at " ++ base_url ++ ": " ++ m))) ∧
    (base_url ≠ "" → api_key ≠ "" → ∀ e, probe = .otherExc e →
      mealieClient_init base_url api_key probe = .error e) := by
  refine ⟨?_, ?_, ?_, ?_⟩
  · intro h pr; simp [mealieClient_init, h]
  · intro h1 h2 pr; simp [mealieClient_init, h1, h2]
  · intro h1 h2 m hm; subst hm; simp [mealieClient_init, h1, h2]
  · intro h1 h2 e he; subst he; simp [mealieClient_init, h1, h2]

theorem client_init_validation_then_probe_witness :
    mealieClient_init "" "key" (.ok ⟨200, "", none⟩) =
      .error (.valueError "Base URL cannot be empty") ∧
    mealieClient_init "http://mealie.local" "" (.ok ⟨200, "", none⟩) =
      .error (.valueError "API key cannot be empty") ∧
    mealieClient_init "http://mealie.local" "key" (.connectError "refused") =
      .error (.connectionError
        "Failed to connect to Mealie API at http://mealie.local: refused") ∧
    mealieClient_init "http://mealie.local" "key"
      (.otherExc (.otherError "boom")) = .error (.otherError "boom") := by
  refine ⟨?_, ?_, ?_, ?_⟩
  · exact (client_init_validation_then_probe "" "key"
      (.ok ⟨200, "", none⟩)).1 rfl _
  · exact (client_init_validation_then_probe "http://mealie.local" ""
      (.ok ⟨200, "", none⟩)).2.1 (by decide) rfl _
  · exact (client_init_validation_then_probe "http://mealie.local" "key"
      (.connectError "refused")).2.2.1 (by decide) (by decide) "refused" rfl
  · exact (client_init_validation_then_probe "http://mealie.local" "key"
      (.otherExc (.otherError "boom"))).2.2.2 (by decide) (by decide) _ rfl

/-! ## Claim C3 -/

theorem handle_request_non2xx (method url : String) (resp : HttpResponse)
    (h : ¬(200 ≤ resp.status ∧ resp.status < 300)) :
    handle_request method url resp =
      .error (.apiError resp.status
        (composedApiMessage method url (currentErrorDetail resp)) resp.text) := by
  unfold handle_request
  rw [if_neg h]
  rfl

theorem legacy_handle_request_non2xx (method url : String) (resp : HttpResponse)
    (h : ¬(200 ≤ resp.status ∧ resp.status < 300)) :
    legacy_handle_request method url resp =
      .error (.apiError resp.status
        (composedApiMessage method url (legacyErrorDetail resp)) resp.text) := by
  unfold legacy_handle_request
  rw [if_neg h]
  rfl

/-- C3 counterexample: for the 404 response whose body is
`{"detail": "Not Found"}`, the current handler
(`src/mealie/client.py`) composes its message from the string rendering of
the whole parsed JSON object, not from the `detail` field, so the raised
message differs from the claimed `"API error for {method} {path}: {detail}"`
with the detail-field value. -/
theorem api_error_detail_field_cex :
    handle_request "GET" "/api/recipes/missing-slug"
      ⟨404, "\x7b\"detail\": \"Not Found\"\x7d",
        some (.jObj [("detail", .jStr "Not Found")])⟩ =
      .error (.apiError 404
        "API error for GET /api/recipes/missing-slug: \x7b\x27detail\x27: \x27Not Found\x27\x7d"
        "\x7b\"detail\": \"Not Found\"\x7d") ∧
    "API error for GET /api/recipes/missing-slug: \x7b\x27detail\x27: \x27Not Found\x27\x7d" ≠
      composedApiMessage "GET" "/api/recipes/missing-slug" "Not Found" :=
  ⟨rfl, by decide⟩

/-- C3 amended: every non-2xx response raises exactly the API error kind
carrying the status code, the raw body and the composed
`"API error for {method} {path}: {detail}"` message — but in the current
handler the detail is the string rendering of the whole parsed JSON body
(raw text when parsing fails), while only the legacy handler uses the
body's `detail` field as claimed (with an `"HTTP Error {status}"`
placeholder when the parsed body has no such field). -/
theorem api_error_composition (method url : String) (resp : HttpResponse)
    (h : ¬(200 ≤ resp.status ∧ resp.status < 300)) :
    handle_request method url resp =
      .error (.apiError resp.status
        (composedApiMessage method url (currentErrorDetail resp)) resp.text) ∧
    legacy_handle_request method url resp =
      .error (.apiError resp.status
        (composedApiMessage method url (legacyErrorDetail resp)) resp.text) :=
  ⟨handle_request_non2xx method url resp h,
    legacy_handle_request_non2xx method url resp h⟩

theorem api_error_composition_witness :
    ¬(200 ≤ 404 ∧ 404 < 300) ∧
    legacy_handle_request "GET" "/api/recipes/missing-slug"
      ⟨404, "\x7b\"detail\": \"Not Found\"\x7d",
        some (.jObj [("detail", .jStr "Not Found")])⟩ =
      .error (.apiError 404
        "API error for GET /api/recipes/missing-slug: Not Found"
        "\x7b\"detail\": \"Not Found\"\x7d") := by
  refine ⟨by decide, ?_⟩
  have h := api_error_composition "GET" "/api/recipes/missing-slug"
    ⟨404, "\x7b\"detail\": \"Not Found\"\x7d",
      some (.jObj [("detail", .jStr "Not Found")])⟩ (by decide)
  exact h.2

/-! ## Claim C7 -/

/-- C7 counterexample: the legacy handler (`src/mealie_client.py`) returns
`response.json()` directly on 2xx, so a 2xx body that is not valid JSON
(here the bare text `imported-recipe`) raises a JSON decode error instead
of returning the raw text; the current handler returns the text. -/
theorem legacy_raises_on_non_json_2xx_cex :
    legacy_handle_request "POST" "/api/recipes"
      ⟨201, "imported-recipe", none⟩ =
      .error (.jsonDecodeError "Expecting value: line 1 column 1 (char 0)") ∧
    handle_request "POST" "/api/recipes" ⟨201, "imported-recipe", none⟩ =
      .ok (.text "imported-recipe") :=
  ⟨rfl, rfl⟩

/-- C7 amended: on every 2xx response both handlers return the parsed JSON
body when the body is valid JSON; when it is not, the current handler
(`src/mealie/client.py`) returns the raw text and never raises, while the
legacy handler raises a JSON decode error. -/
theorem success_branch_json_or_text (method url : String) (resp : HttpResponse)
    (h2 : 200 ≤ resp.status) (h3 : resp.status < 300) :
    (∀ j, resp.jsonBody = some j →
      handle_request method url resp = .ok (.json j) ∧
      legacy_handle_request method url resp = .ok (.json j)) ∧
    (resp.jsonBody = none →
      handle_request method url resp = .ok (.text resp.text) ∧
      legacy_handle_request method url resp =
        .error (.jsonDecodeError "Expecting value: line 1 column 1 (char 0)")) := by
  unfold handle_request legacy_handle_request
  rw [if_pos ⟨h2, h3⟩, if_pos ⟨h2, h3⟩]
  exact ⟨fun j hj => by rw [hj]; exact ⟨rfl, rfl⟩,
    fun hn => by rw [hn]; exact ⟨rfl, rfl⟩⟩

theorem success_branch_json_or_text_witness :
    (200 ≤ 200 ∧ 200 < 300) ∧
    handle_request "GET" "/api/foods" ⟨200, "plain text", none⟩ =
      .ok (.text "plain text") ∧
    handle_request "GET" "/api/foods"
      ⟨200, "[1]", some (.jArr [.jNum 1])⟩ = .ok (.json (.jArr [.jNum 1])) := by
  refine ⟨by decide, ?_, ?_⟩
  · exact ((success_branch_json_or_text "GET" "/api/foods"
      ⟨200, "plain text", none⟩ (by decide) (by decide)).2 rfl).1
  · exact ((success_branch_json_or_text "GET" "/api/foods"
      ⟨200, "[1]", some (.jArr [.jNum 1])⟩ (by decide) (by decide)).1 _ rfl).1

/-! ## Claim C6 -/

/-- C6: `get_recipes(search="chicken", per_page=20)` (all other optional
arguments at their defaults, so `order_direction="desc"`) dispatches
exactly one GET to `/api/recipes` whose parameters are exactly
`search=chicken, orderDirection=desc, perPage=20`, and returns the parsed
backend response unmodified. -/
theorem get_recipes_search_perpage_query (resp : HttpResponse) :
    (get_recipes_run (some "chicken") none none (some "desc") none none none
      (some 20) none none none resp).1 =
      [⟨"GET", "/api/recipes",
        [("search", PyVal.vStr "chicken"), ("orderDirection", PyVal.vStr "desc"),
         ("perPage", PyVal.vInt 20)], none⟩] ∧
    (∀ j, 200 ≤ resp.status → resp.status < 300 → resp.jsonBody = some j →
      (get_recipes_run (some "chicken") none none (some "desc") none none none
        (some 20) none none none resp).2 = .ok (.json j)) := by
  refine ⟨rfl, fun j h2 h3 hj => ?_⟩
  show handle_request "GET" "/api/recipes" resp = .ok (.json j)
  unfold handle_request
  rw [if_pos ⟨h2, h3⟩, hj]

theorem get_recipes_search_perpage_query_witness :
    (200 ≤ 200 ∧ 200 < 300) ∧
    (get_recipes_run (some "chicken") none none (some "desc") none none none
      (some 20) none none none
      ⟨200, "\x7b\"items\": []\x7d", some (.jObj [("items", .jArr [])])⟩).2 =
      .ok (.json (.jObj [("items", .jArr [])])) :=
  ⟨by decide,
    (get_recipes_search_perpage_query
      ⟨200, "\x7b\"items\": []\x7d", some (.jObj [("items", .jArr [])])⟩).2
      _ (by decide) (by decide) rfl⟩

/-! ## Claim C8 -/

/-- C8 (modelled from the spec, the method being absent from the source
tree): recipe import from a URL validates the URL before any request —
empty or lacking an accepted scheme prefix raises with an empty request
trace — then POSTs `{url}` to the creation endpoint; if that call fails
the trace stops at one request and the error propagates, and on a bare
identifier string reply it GETs the full resource with that identifier and
returns the second call's result. -/
theorem import_recipe_from_url_compound (url : String)
    (resp1 resp2 : HttpResponse) :
    (url = "" → ∀ r1 r2, import_recipe_from_url_run url r1 r2 =
      ([], .error (.valueError "Recipe URL cannot be empty"))) ∧
    (url ≠ "" → acceptedScheme url = false →
      ∀ r1 r2, import_recipe_from_url_run url r1 r2 =
        ([], .error (.valueError "Invalid URL format"))) ∧
    (acceptedScheme url = true →
      ∀ e, handle_request "POST" "/api/recipes/create/url" resp1 = .error e →
        import_recipe_from_url_run url resp1 resp2 =
          ([⟨"POST", "/api/recipes/create/url", [],
             some (.jObj [("url", .jStr url)])⟩], .error e)) ∧
    (acceptedScheme url = true →
      ∀ s, handle_request "POST" "/api/recipes/create/url" resp1 =
          .ok (.json (.jStr s)) →
        import_recipe_from_url_run url resp1 resp2 =
          ([⟨"POST", "/api/recipes/create/url", [],
             some (.jObj [("url", .jStr url)])⟩,
            ⟨"GET", "/api/recipes/" ++ s, [], none⟩],
           handle_request "GET" ("/api/recipes/" ++ s) resp2)) := by
  have hne : acceptedScheme url = true → url ≠ "" := by
    intro h heq
    rw [heq] at h
    exact absurd h (by decide)
  refine ⟨?_, ?_, ?_, ?_⟩
  · intro h r1 r2; simp [import_recipe_from_url_run, h]
  · intro h1 h2 r1 r2
    simp [import_recipe_from_url_run, h1, h2]
  · intro h e he
    simp [import_recipe_from_url_run, hne h, h, he]
  · intro h s hs
    simp [import_recipe_from_url_run, hne h, h, hs]

theorem import_recipe_from_url_compound_witness :
    ("not-a-url" ≠ "" ∧
      acceptedScheme "not-a-url" = false ∧
      import_recipe_from_url_run "not-a-url" ⟨200, "", none⟩ ⟨200, "", none⟩ =
        ([], .error (.valueError "Invalid URL format"))) ∧
    (acceptedScheme "https://example.com/recipe" = true ∧
      handle_request "POST" "/api/recipes/create/url"
        ⟨200, "\"imported-recipe\"", some (.jStr "imported-recipe")⟩ =
        .ok (.json (.jStr "imported-recipe")) ∧
      import_recipe_from_url_run "https://example.com/recipe"
        ⟨200, "\"imported-recipe\"", some (.jStr "imported-recipe")⟩
        ⟨200, "\x7b\"slug\": \"imported-recipe\"\x7d",
          some (.jObj [("slug", .jStr "imported-recipe")])⟩ =
        ([⟨"POST", "/api/recipes/create/url", [],
           some (.jObj [("url", .jStr "https://example.com/recipe")])⟩,
          ⟨"GET", "/api/recipes/imported-recipe", [], none⟩],
         .ok (.json (.jObj [("slug", .jStr "imported-recipe")])))) := by
  constructor
  · refine ⟨by decide, by decide, ?_⟩
    exact (import_recipe_from_url_compound "not-a-url"
      ⟨200, "", none⟩ ⟨200, "", none⟩).2.1 (by decide) (by decide)
      ⟨200, "", none⟩ ⟨200, "", none⟩
  · refine ⟨by decide, rfl, ?_⟩
    exact (import_recipe_from_url_compound "https://example.com/recipe"
      ⟨200, "\"imported-recipe\"", some (.jStr "imported-recipe")⟩
      ⟨200, "\x7b\"slug\": \"imported-recipe\"\x7d",
        some (.jObj [("slug", .jStr "imported-recipe")])⟩).2.2.2
      (by decide) "imported-recipe" rfl

/-! ## Claim C1 -/

theorem bulkCreatePayload_error_of_missing_display (list_id : String)
    (items : List PyDict) (h : ∃ it ∈ items, plookup "display" it = none) :
    bulkCreatePayload list_id items =
      .error (.valueError "Each item must have a \x27display\x27 name") := by
  induction items with
  | nil => simp at h
  | cons it rest ih =>
      rcases h with ⟨x, hx, hlk⟩
      rcases List.mem_cons.mp hx with hhd | htl
      · subst hhd
        simp [bulkCreatePayload, truthyGet, hlk]
      · cases hd : truthyGet "display" it with
        | false => simp [bulkCreatePayload, hd]
        | true =>
            simp [bulkCreatePayload, hd, ih ⟨x, htl, hlk⟩, Bind.bind, Except.bind]

theorem bulkUpdateValidate_error_of_missing_id (items : List PyDict)
    (h : ∃ it ∈ items, plookup "id" it = none) :
    bulkUpdateValidate items =
      .error (.valueError "Each item must have an \x27id\x27 field") := by
  induction items with
  | nil => simp at h
  | cons it rest ih =>
      rcases h with ⟨x, hx, hlk⟩
      rcases List.mem_cons.mp hx with hhd | htl
      · subst hhd
        simp [bulkUpdateValidate, truthyGet, hlk]
      · cases hd : truthyGet "id" it with
        | false => simp [bulkUpdateValidate, hd]
        | true => simp [bulkUpdateValidate, hd, ih ⟨x, htl, hlk⟩]

/-- C1: every domain operation with required arguments raises a `ValueError`
with an empty request trace — zero network calls — when a required argument
is missing or empty; the bulk operations additionally raise before dispatch
on an empty list, on a create element without a display-name field, and on
an update element without an identifier field. -/
theorem required_argument_validation_before_dispatch :
    (∀ resp, get_recipe_run "" resp =
      ([], .error (.valueError "Recipe slug cannot be empty"))) ∧
    (∀ rd resp, update_recipe_run "" rd resp =
      ([], .error (.valueError "Recipe slug cannot be empty"))) ∧
    (∀ slug resp, slug ≠ "" → update_recipe_run slug [] resp =
      ([], .error (.valueError "Recipe data cannot be empty"))) ∧
    (∀ d resp, create_shopping_list_run "" d resp =
      ([], .error (.valueError "Shopping list name cannot be empty"))) ∧
    (∀ n d resp, update_shopping_list_run "" n d resp =
      ([], .error (.valueError "Shopping list ID cannot be empty"))) ∧
    (∀ lid resp, lid ≠ "" → update_shopping_list_run lid none none resp =
      ([], .error (.valueError "At least one of name or description must be provided"))) ∧
    (∀ resp, get_shopping_list_run "" resp =
      ([], .error (.valueError "Shopping list ID cannot be empty"))) ∧
    (∀ inm q u no f resp, create_shopping_list_item_run "" inm q u no f resp =
      ([], .error (.valueError "Shopping list ID cannot be empty"))) ∧
    (∀ lid q u no f resp, lid ≠ "" →
      create_shopping_list_item_run lid "" q u no f resp =
        ([], .error (.valueError "Item name cannot be empty"))) ∧
    (∀ n q u no c p resp, update_shopping_list_item_run "" n q u no c p resp =
      ([], .error (.valueError "Shopping list item ID cannot be empty"))) ∧
    (∀ iid resp, iid ≠ "" →
      update_shopping_list_item_run iid none none none none none none resp =
        ([], .error (.valueError "At least one parameter must be provided to update"))) ∧
    (∀ resp, delete_shopping_list_item_run "" resp =
      ([], .error (.valueError "Shopping list item ID cannot be empty"))) ∧
    (∀ resp, get_shopping_list_item_run "" resp =
      ([], .error (.valueError "Shopping list item ID cannot be empty"))) ∧
    (∀ resp, toggle_shopping_list_item_run "" resp =
      ([], .error (.valueError "Shopping list item ID cannot be empty"))) ∧
    (∀ items resp, bulk_create_shopping_list_items_run "" items resp =
      ([], .error (.valueError "Shopping list ID cannot be empty"))) ∧
    (∀ lid resp, lid ≠ "" → bulk_create_shopping_list_items_run lid [] resp =
      ([], .error (.valueError "Items must be a non-empty list of item dictionaries"))) ∧
    (∀ lid items resp, lid ≠ "" → (∃ it ∈ items, plookup "display" it = none) →
      bulk_create_shopping_list_items_run lid items resp =
        ([], .error (.valueError "Each item must have a \x27display\x27 name"))) ∧
    (∀ resp, bulk_update_shopping_list_items_run [] resp =
      ([], .error (.valueError "Items must be a non-empty list of item dictionaries"))) ∧
    (∀ items resp, (∃ it ∈ items, plookup "id" it = none) →
      bulk_update_shopping_list_items_run items resp =
        ([], .error (.valueError "Each item must have an \x27id\x27 field"))) ∧
    (∀ resp, bulk_delete_shopping_list_items_run [] resp =
      ([], .error (.valueError "Item IDs must be a non-empty list"))) := by
  refine ⟨fun resp => rfl, fun rd resp => rfl, ?_, fun d resp => rfl, fun n d resp => rfl,
    ?_, fun resp => rfl, fun inm q u no f resp => rfl, ?_, fun n q u no c p resp => rfl,
    ?_, fun resp => rfl, fun resp => rfl, fun resp => rfl, fun items resp => rfl,
    ?_, ?_, fun resp => rfl, ?_, fun resp => rfl⟩
  · intro slug resp h; simp [update_recipe_run, h]
  · intro lid resp h; simp [update_shopping_list_run, h]
  · intro lid q u no f resp h; simp [create_shopping_list_item_run, h]
  · intro iid resp h; simp [update_shopping_list_item_run, h]
  · intro lid resp h; simp [bulk_create_shopping_list_items_run, h]
  · intro lid items resp hlid hex
    have hne : items.isEmpty = false := by
      rcases hex with ⟨x, hx, _⟩
      cases items
      · simp at hx
      · rfl
    simp [bulk_create_shopping_list_items_run, hlid, hne,
      bulkCreatePayload_error_of_missing_display lid items hex]
  · intro items resp hex
    have hne : items.isEmpty = false := by
      rcases hex with ⟨x, hx, _⟩
      cases items
      · simp at hx
      · rfl
    simp [bulk_update_shopping_list_items_run, hne,
      bulkUpdateValidate_error_of_missing_id items hex]

theorem required_argument_validation_before_dispatch_witness :
    ("slug1" ≠ "" ∧ update_recipe_run "slug1" [] ⟨200, "", none⟩ =
      ([], .error (.valueError "Recipe data cannot be empty"))) ∧
    ("L1" ≠ "" ∧
      (∃ it ∈ [[("note", JVal.jStr "x")]], plookup "display" it = none) ∧
      bulk_create_shopping_list_items_run "L1" [[("note", JVal.jStr "x")]]
        ⟨200, "", none⟩ =
        ([], .error (.valueError "Each item must have a \x27display\x27 name"))) ∧
    ((∃ it ∈ [[("display", JVal.jStr "Milk")]], plookup "id" it = none) ∧
      bulk_update_shopping_list_items_run [[("display", JVal.jStr "Milk")]]
        ⟨200, "", none⟩ =
        ([], .error (.valueError "Each item must have an \x27id\x27 field"))) ∧
    bulk_delete_shopping_list_items_run [] ⟨200, "", none⟩ =
      ([], .error (.valueError "Item IDs must be a non-empty list")) := by
  have h := required_argument_validation_before_dispatch
  refine ⟨⟨by decide, h.2.2.1 "slug1" ⟨200, "", none⟩ (by decide)⟩, ?_, ?_, ?_⟩
  · refine ⟨by decide, ⟨[("note", JVal.jStr "x")], by simp, rfl⟩, ?_⟩
    exact h.2.2.2.2.2.2.2.2.2.2.2.2.2.2.2.2.1 "L1" [[("note", JVal.jStr "x")]]
      ⟨200, "", none⟩ (by decide) ⟨[("note", JVal.jStr "x")], by simp, rfl⟩
  · refine ⟨⟨[("display", JVal.jStr "Milk")], by simp, rfl⟩, ?_⟩
    exact h.2.2.2.2.2.2.2.2.2.2.2.2.2.2.2.2.2.2.1
      [[("display", JVal.jStr "Milk")]] ⟨200, "", none⟩
      ⟨[("display", JVal.jStr "Milk")], by simp, rfl⟩
  · exact h.2.2.2.2.2.2.2.2.2.2.2.2.2.2.2.2.2.2.2 ⟨200, "", none⟩

/-! ## Claim C4 -/

/-- C4: every exposed tool wrapper — the seventeen in `src/server.py` and
every `register_*_tools` wrapper in `src/tools/*.py` — returns a value
rather than letting an exception cross the boundary: a returned value
passes through, and any caught exception becomes exactly the Error
Envelope string `{"success": false, "error": <message>}` built from the
wrapper's message and `str(e)`.  Each wrapper equals the shared boundary
at its exact message; for the cited `get_recipe` wrapper the composition
with the client is proved, and a backend 404 yields an envelope whose
error string contains `"404"`. -/
theorem tool_boundary_uniform_envelope :
    (∀ (p : String) (r : HandleResult),
      toolBoundary p (.ok r) = .inr r) ∧
    (∀ (p : String) (e : PyExc),
      toolBoundary p (Except.error e : Except PyExc HandleResult) =
        .inl (format_error_response (p ++ pyExcStr e))) ∧
    (∀ res, tool_get_foods res = toolBoundary "Error fetching foods: " res) ∧
    (∀ res, tool_get_recipes res = toolBoundary "Error fetching recipes: " res) ∧
    (∀ slug resp, tool_get_recipe slug resp =
      ((get_recipe_run slug resp).1,
        toolBoundary ("Error fetching recipe with slug \x27" ++ slug ++ "\x27: ")
          (get_recipe_run slug resp).2)) ∧
    (∀ slug res, tool_update_recipe slug res =
      toolBoundary ("Error updating recipe with slug \x27" ++ slug ++ "\x27: ") res) ∧
    (∀ name res, tool_create_recipe name res =
      toolBoundary ("Error creating recipe with name \x27" ++ name ++ "\x27: ") res) ∧
    (∀ name res, tool_create_shopping_list name res =
      toolBoundary ("Error creating shopping list \x27" ++ name ++ "\x27: ") res) ∧
    (∀ lid res, tool_update_shopping_list lid res =
      toolBoundary ("Error updating shopping list \x27" ++ lid ++ "\x27: ") res) ∧
    (∀ res, tool_get_shopping_lists res =
      toolBoundary "Error fetching shopping lists: " res) ∧
    (∀ lid res, tool_get_shopping_list lid res =
      toolBoundary ("Error fetching shopping list \x27" ++ lid ++ "\x27: ") res) ∧
    (∀ inm res, tool_create_shopping_list_item inm res =
      toolBoundary ("Error creating shopping list item \x27" ++ inm ++ "\x27: ") res) ∧
    (∀ iid res, tool_update_shopping_list_item iid res =
      toolBoundary ("Error updating shopping list item \x27" ++ iid ++ "\x27: ") res) ∧
    (∀ iid res, tool_delete_shopping_list_item iid res =
      toolBoundary ("Error deleting shopping list item \x27" ++ iid ++ "\x27: ") res) ∧
    (∀ iid res, tool_get_shopping_list_item iid res =
      toolBoundary ("Error fetching shopping list item \x27" ++ iid ++ "\x27: ") res) ∧
    (∀ iid res, tool_toggle_shopping_list_item iid res =
      toolBoundary ("Error toggling shopping list item \x27" ++ iid ++ "\x27: ") res) ∧
    (∀ res, tool_bulk_create_shopping_list_items res =
      toolBoundary "Error bulk creating shopping list items: " res) ∧
    (∀ res, tool_bulk_update_shopping_list_items res =
      toolBoundary "Error bulk updating shopping list items: " res) ∧
    (∀ res, tool_bulk_delete_shopping_list_items res =
      toolBoundary "Error bulk deleting shopping list items: " res) ∧
    (∀ res, tool_get_all_shopping_list_items res =
      toolBoundary "Error retrieving shopping list items: " res) ∧
    (∀ fid res, tool_get_food fid res =
      toolBoundary ("Error fetching food with ID " ++ fid ++ ": ") res) ∧
    (∀ res, tool_create_food res = toolBoundary "Error creating food: " res) ∧
    (∀ fid res, tool_update_food fid res =
      toolBoundary ("Error updating food with ID " ++ fid ++ ": ") res) ∧
    (∀ res, tool_get_current_user res =
      toolBoundary "Error fetching current user information: " res) ∧
    (∀ res, tool_get_current_group res =
      toolBoundary "Error fetching current group information: " res) ∧
    (∀ res, tool_get_mealplans res =
      toolBoundary "Error fetching meal plans: " res) ∧
    (∀ iid res, tool_get_mealplan iid res =
      toolBoundary ("Error fetching meal plan with ID " ++ toString iid ++ ": ") res) ∧
    (∀ res, tool_create_mealplan res =
      toolBoundary "Error creating meal plan: " res) ∧
    (∀ iid res, tool_update_mealplan iid res =
      toolBoundary ("Error updating meal plan with ID " ++ toString iid ++ ": ") res) ∧
    (∀ res, tool_get_todays_meals res =
      toolBoundary "Error fetching today\x27s meal plans: " res) ∧
    (∀ res, tool_create_random_meal res =
      toolBoundary "Error creating random meal: " res) ∧
    (∀ res, tool_get_mealplan_rules res =
      toolBoundary "Error fetching meal plan rules: " res) ∧
    (∀ rid res, tool_get_mealplan_rule rid res =
      toolBoundary ("Error fetching meal plan rule with ID " ++ rid ++ ": ") res) ∧
    (∀ res, tool_create_mealplan_rule res =
      toolBoundary "Error creating meal plan rule: " res) ∧
    (∀ rid res, tool_update_mealplan_rule rid res =
      toolBoundary ("Error updating meal plan rule with ID " ++ rid ++ ": ") res) ∧
    (∀ slug resp tr e, get_recipe_run slug resp = (tr, .error e) →
      tool_get_recipe slug resp = (tr, .inl (format_error_response
        ("Error fetching recipe with slug \x27" ++ slug ++ "\x27: " ++ pyExcStr e)))) ∧
    (∀ slug resp, slug ≠ "" → resp.status = 404 →
      ∃ a b, (tool_get_recipe slug resp).2 = .inl (a ++ "404" ++ b)) := by
  refine ⟨fun p r => rfl, fun p e => rfl, fun res => rfl, fun res => rfl,
    ?_, fun slug res => rfl, fun name res => rfl, fun name res => rfl,
    fun lid res => rfl, fun res => rfl, fun lid res => rfl, fun inm res => rfl,
    fun iid res => rfl, fun iid res => rfl, fun iid res => rfl, fun iid res => rfl,
    fun res => rfl, fun res => rfl, fun res => rfl, fun res => rfl,
    fun fid res => rfl, fun res => rfl, fun fid res => rfl, fun res => rfl,
    fun res => rfl, fun res => rfl, fun iid res => rfl, fun res => rfl,
    fun iid res => rfl, fun res => rfl, fun res => rfl, fun res => rfl,
    fun rid res => rfl, fun res => rfl, fun rid res => rfl, ?_, ?_⟩
  · intro slug resp
    rcases hrun : get_recipe_run slug resp with ⟨tr, out⟩
    cases out <;> simp [tool_get_recipe, toolBoundary, hrun]
  · intro slug resp tr e h; simp [tool_get_recipe, h]
  · intro slug resp hs h404
    have hnot : ¬(200 ≤ resp.status ∧ resp.status < 300) := by
      rw [h404]; decide
    have hrun : get_recipe_run slug resp =
        ([⟨"GET", "/api/recipes/" ++ slug, [], none⟩],
          .error (.apiError resp.status
            (composedApiMessage "GET" ("/api/recipes/" ++ slug)
              (currentErrorDetail resp)) resp.text)) := by
      simp only [get_recipe_run, if_neg hs, dispatch]
      rw [handle_request_non2xx "GET" ("/api/recipes/" ++ slug) resp hnot]
    refine ⟨"\x7b\"success\": false, \"error\": \"" ++
      jsonEscape ("Error fetching recipe with slug \x27" ++ slug ++ "\x27: " ++
        composedApiMessage "GET" ("/api/recipes/" ++ slug)
          (currentErrorDetail resp) ++ " (Status Code: "), ")\"\x7d", ?_⟩
    have e1 : jsonEscape " (Status Code: " = " (Status Code: " := rfl
    have e2 : jsonEscape "404" = "404" := rfl
    have e3 : jsonEscape ")" = ")" := rfl
    have e4 : toString (404 : Nat) = "404" := rfl
    have e5 : jsonEscape " (Status Code: 404)" = " (Status Code: 404)" := rfl
    simp [tool_get_recipe, hrun, format_error_response, pyExcStr, h404, e4,
      jsonEscape_append, e1, e2, e3, e5, String.append_assoc]

theorem tool_boundary_uniform_envelope_witness :
    ("missing-slug" ≠ "" ∧
      (⟨404, "\x7b\"detail\": \"Not Found\"\x7d",
        some (.jObj [("detail", .jStr "Not Found")])⟩ : HttpResponse).status = 404) ∧
    (∃ a b, (tool_get_recipe "missing-slug"
      ⟨404, "\x7b\"detail\": \"Not Found\"\x7d",
        some (.jObj [("detail", .jStr "Not Found")])⟩).2 = .inl (a ++ "404" ++ b)) ∧
    tool_get_recipe "pasta" ⟨200, "\x7b\x7d", some (.jObj [])⟩ =
      ([⟨"GET", "/api/recipes/pasta", [], none⟩], .inr (.json (.jObj []))) ∧
    tool_get_foods (.error (.timeoutError "Request timeout for GET /api/foods")) =
      .inl (format_error_response
        "Error fetching foods: Request timeout for GET /api/foods") := by
  obtain ⟨h1, h2, h3, -, h5, -, -, -, -, -, -, -, -, -, -, -, -, -, -, -, -, -,
    -, -, -, -, -, -, -, -, -, -, -, -, -, h36, h37⟩ :=
    tool_boundary_uniform_envelope
  refine ⟨⟨by decide, rfl⟩, ?_, ?_, ?_⟩
  · exact h37 "missing-slug"
      ⟨404, "\x7b\"detail\": \"Not Found\"\x7d",
        some (.jObj [("detail", .jStr "Not Found")])⟩ (by decide) rfl
  · rw [h5 "pasta" ⟨200, "\x7b\x7d", some (.jObj [])⟩]; rfl
  · rw [h3, h2]; rfl

end Mealie
